import Mathlib

/-!
Verification of the seatmap XML normalizer (`src/parser.py`).

The development shallowly embeds the Python source:

* XML element trees (`xml.etree.ElementTree`) become the mutual inductive
  `XmlElem`/`XmlChildren`; `el.get`, `el.find`, `el.iter` become `XmlElem.get`,
  `pyFind`, `pyIter` (including the Python truthiness quirk of `_iter`: an
  element with no children is falsy, so `_iter` falls back to `self.root`).
* Python `dict` becomes an association list (`PyDict`) with insertion function
  `dinsert` mirroring dict assignment (update in place, append if new key).
* Python `float` values are idealized as exact fractions (`PyFloat`,
  an integer numerator with a positive natural denominator); string-to-number
  conversions (`float(..)`, `int(..)`) are modelled on the plain decimal-literal
  subset that the documents use, and `str.format` rendering with `' .pf'`
  rounds half-to-even, as Python does on the represented value.
* Fallible Python code (attribute access on `None`, dict indexing, `float()`
  conversion errors, sequence indexing) returns `Except PyErr`.
-/

/-- Python exception kinds that the translated code can raise. -/
inductive PyErr : Type where
  | attributeError
  | typeError
  | valueError
  | keyError
  | indexError
deriving DecidableEq

def orAttr {α : Type} : Option α → Except PyErr α
  | none => Except.error PyErr.attributeError
  | some a => Except.ok a

def orFail {α : Type} (o : Option α) (e : PyErr) : Except PyErr α :=
  match o with
  | none => Except.error e
  | some a => Except.ok a

/-- Python `str(None)` as used by `str.format` on a `None` argument. -/
def pyStr : Option String → String
  | none => "None"
  | some s => s

def braceOpen : Char := Char.ofNat 123

def braceClose : Char := Char.ofNat 125

/-- Python `str.strip()` on a character list: drop whitespace at both ends. -/
def stripList (cs : List Char) : List Char :=
  ((cs.dropWhile Char.isWhitespace).reverse.dropWhile Char.isWhitespace).reverse

def pythonStrip (s : String) : String := String.mk (stripList s.data)

/-- Python `str.split(sep)` for a one-character separator. -/
def splitChar (sep : Char) (cs : List Char) : List (List Char) :=
  cs.foldr (fun c acc =>
    if c = sep then [] :: acc
    else match acc with
      | [] => [[c]]
      | a :: rest => (c :: a) :: rest) [[]]

/-- Value of a decimal digit string (most significant digit first). -/
def digitsVal (ds : List Char) : ℕ := ds.foldl (fun a c => 10 * a + (c.toNat - 48)) 0

/-- Decimal digits of a natural number, most significant first (fuel-driven so
that the definition is structural and kernel-computable). -/
def natDigitsGo : ℕ → ℕ → List Char
  | 0, _ => []
  | fuel + 1, n =>
    if n < 10 then [Nat.digitChar n]
    else natDigitsGo fuel (n / 10) ++ [Nat.digitChar (n % 10)]

def natDigits (n : ℕ) : List Char := natDigitsGo (n + 1) n

/-- Pad a digit string on the left with zeros up to width `p`. -/
def padZeros (p : ℕ) (ds : List Char) : List Char :=
  List.replicate (p - ds.length) '0' ++ ds

/-- Boolean test that `p` is an initial segment of the second list. -/
def leadsWith : List Char → List Char → Bool
  | [], _ => true
  | _ :: _, [] => false
  | c :: cs, d :: ds => c == d && leadsWith cs ds

/-- Python `needle in haystack` substring test. -/
def occursIn (p : List Char) : List Char → Bool
  | [] => p.isEmpty
  | d :: ds => leadsWith p (d :: ds) || occursIn p ds

/-- Exact-fraction model of a Python float: `num / den` with `den` positive by
construction at every use site. -/
structure PyFloat : Type where
  num : ℤ
  den : ℕ
deriving DecidableEq

def pyZero : PyFloat := ⟨0, 1⟩

/-- Python `+` on two modelled floats (`sum` accumulates with this). -/
def PyFloat.add (x y : PyFloat) : PyFloat :=
  ⟨x.num * y.den + y.num * x.den, x.den * y.den⟩

/-- Python `x / (10 ** p)` for an integer exponent `p`. -/
def PyFloat.divPow10 (x : PyFloat) (p : ℤ) : PyFloat :=
  if p < 0 then ⟨x.num * 10 ^ (-p).toNat, x.den⟩ else ⟨x.num, x.den * 10 ^ p.toNat⟩

/-- Round to the nearest integer, ties to even — the rounding that Python's
fixed-point `format` applies to the represented value. -/
def PyFloat.roundHalfEven (x : PyFloat) : ℤ :=
  let f := x.num.fdiv x.den
  let r2 : ℤ := 2 * (x.num - f * x.den)
  if r2 < (x.den : ℤ) then f
  else if (x.den : ℤ) < r2 then f + 1
  else if f % 2 = 0 then f else f + 1

/-- Python `float(s)` on the decimal-literal subset: optional sign, digits with
an optional fractional part, surrounding whitespace ignored. -/
def parseFloat (s : String) : Option PyFloat :=
  let cs := stripList s.data
  let sign : Bool × List Char :=
    match cs with
    | c :: rest => if c = '-' then (true, rest) else if c = '+' then (false, rest) else (false, cs)
    | [] => (false, [])
  match splitChar '.' sign.2 with
  | [ip] =>
    if ip ≠ [] ∧ ip.all Char.isDigit = true then
      some ⟨(if sign.1 then -1 else 1) * (digitsVal ip : ℤ), 1⟩
    else none
  | [ip, fp] =>
    if (ip ≠ [] ∨ fp ≠ []) ∧ ip.all Char.isDigit = true ∧ fp.all Char.isDigit = true then
      some ⟨(if sign.1 then -1 else 1) * ((digitsVal ip : ℤ) * 10 ^ fp.length + (digitsVal fp : ℤ)),
            10 ^ fp.length⟩
    else none
  | _ => none

/-- Python `int(s)`: optional sign and decimal digits, whitespace ignored. -/
def parseInt (s : String) : Option ℤ :=
  let cs := stripList s.data
  let sign : Bool × List Char :=
    match cs with
    | c :: rest => if c = '-' then (true, rest) else if c = '+' then (false, rest) else (false, cs)
    | [] => (false, [])
  if sign.2 ≠ [] ∧ sign.2.all Char.isDigit = true then
    some ((if sign.1 then -1 else 1) * (digitsVal sign.2 : ℤ))
  else none

mutual
/-- An `xml.etree.ElementTree` element: tag, attributes, text, children. -/
inductive XmlElem : Type where
  | mk (tag : String) (attrs : List (String × String)) (text : Option String)
      (children : XmlChildren)
/-- The child list of an element (a mutual inductive so that recursion over the
tree is structural and kernel-computable). -/
inductive XmlChildren : Type where
  | nil
  | cons (e : XmlElem) (rest : XmlChildren)
end

def XmlElem.tag : XmlElem → String
  | .mk t _ _ _ => t

def XmlElem.attrs : XmlElem → List (String × String)
  | .mk _ a _ _ => a

def XmlElem.text : XmlElem → Option String
  | .mk _ _ x _ => x

def XmlElem.children : XmlElem → XmlChildren
  | .mk _ _ _ cs => cs

/-- Element attribute lookup, Python `el.get(name)` (first declaration wins,
`None` when absent). -/
def XmlElem.get (el : XmlElem) (name : String) : Option String :=
  (el.attrs.find? (fun p => p.1 == name)).map (fun p => p.2)

/-- First direct child with the given tag, Python `el.find(tag)`. -/
def XmlChildren.find : XmlChildren → String → Option XmlElem
  | .nil, _ => none
  | .cons e rest, t => if e.tag = t then some e else rest.find t

def XmlChildren.isEmpty : XmlChildren → Bool
  | .nil => true
  | .cons _ _ => false

def XmlChildren.head? : XmlChildren → Option XmlElem
  | .nil => none
  | .cons e _ => some e

def XmlChildren.ofList : List XmlElem → XmlChildren
  | [] => XmlChildren.nil
  | e :: r => XmlChildren.cons e (XmlChildren.ofList r)

mutual
/-- Python `el.iter(tag)`: all elements of the subtree (the element itself
included) whose tag matches, in document order. -/
def XmlElem.iterTag (t : String) : XmlElem → List XmlElem
  | .mk tg a x cs =>
    (if tg = t then [XmlElem.mk tg a x cs] else []) ++ XmlChildren.iterTag t cs
def XmlChildren.iterTag (t : String) : XmlChildren → List XmlElem
  | .nil => []
  | .cons e rest => XmlElem.iterTag t e ++ XmlChildren.iterTag t rest
end

/-- The `ParserXML._get_namespace` regex `\x7b.*\x7d` matched at the start of a
tag: the prefix up to the last closing brace, or the empty string. -/
def nsOf (t : String) : String :=
  let cs := t.data
  if cs.head? = some braceOpen ∧ cs.contains braceClose = true then
    String.mk (cs.reverse.dropWhile (fun c => !(c == braceClose))).reverse
  else ""

/-- The `ParserXML._find` helper: find the namespace-qualified tag among the
direct children. -/
def pyFind (ns : String) (el : XmlElem) (t : String) : Option XmlElem :=
  el.children.find (ns ++ t)

/-- The `ParserXML._iter` helper.  Its `if not root` guard is Python
truthiness: both `None` and an element with no children fall back to
`self.root` before iterating. -/
def pyIter (selfRoot : XmlElem) (ns t : String) (scope : Option XmlElem) : List XmlElem :=
  match scope with
  | none => XmlElem.iterTag (ns ++ t) selfRoot
  | some el =>
    if el.children.isEmpty then XmlElem.iterTag (ns ++ t) selfRoot
    else XmlElem.iterTag (ns ++ t) el

/-- A Python dict keyed by `Option String` (attribute/text lookups can yield
`None`, and `None` is a valid dict key). -/
abbrev PyDict (V : Type) : Type := List (Option String × V)

/-- Python dict assignment `d[k] = v`: overwrite in place when the key exists,
append otherwise. -/
def dinsert {V : Type} (d : PyDict V) (k : Option String) (v : V) : PyDict V :=
  if d.any (fun p => p.1 == k) then d.map (fun p => if p.1 == k then (k, v) else p)
  else d ++ [(k, v)]

/-- Python `d.get(k)` / successful `d[k]`. -/
def dGet {V : Type} (d : PyDict V) (k : Option String) : Option V :=
  (d.find? (fun p => p.1 == k)).map (fun p => p.2)

/-- Build a dict from key/value pairs in order, as a dict comprehension or an
assignment loop does. -/
def foldIns {V : Type} (l : List (Option String × V)) : PyDict V :=
  l.foldl (fun d p => dinsert d p.1 p.2) []

/-- The unified seat record produced by `ParserXML._format_seat`. -/
structure SeatRec : Type where
  seat_id : Option String
  type : List (Option String)
  available : Bool
  price : String
  taxes : String
deriving DecidableEq

/-- The row record produced by `ParserXML._format_row`. -/
structure RowRec : Type where
  row_id : Option String
  cabin_class : Option String
  seats : List SeatRec
deriving DecidableEq

/-- The flight record produced by `ParserXML._format_flight`. -/
structure FlightRec : Type where
  flight_id : Option String
  date : Option String
  time : String
  rows : List RowRec
deriving DecidableEq

def format_seat (id : Option String) (seat_type : List (Option String)) (available : Bool)
    (price : String) (taxes : String) : SeatRec :=
  ⟨id, seat_type, available, price, taxes⟩

def format_row (id : Option String) (cabin_class : Option String) (seats : List SeatRec) :
    RowRec :=
  ⟨id, cabin_class, seats⟩

/-- The `ParserXML._format_flight` helper; `time[:5]` raises `TypeError` when
the time is `None` (possible on the Dialect-B path). -/
def format_flight (id : Option String) (date : Option String) (time : Option String)
    (rows : List RowRec) : Except PyErr FlightRec :=
  match time with
  | none => Except.error PyErr.typeError
  | some t => Except.ok ⟨id, date, String.mk (t.data.take 5), rows⟩

/-- The value scaled by `10 ^ p` and rounded, as a natural number (the
rendered values are non-negative). -/
def nVal (x : PyFloat) (p : ℕ) : ℕ :=
  (PyFloat.roundHalfEven ⟨x.num * 10 ^ p, x.den⟩).toNat

/-- Fixed-point rendering `' .pf'` of a non-negative value without the sign
column: round at `p` decimal places, then print integer digits, and when
`p > 0` a point followed by exactly `p` fractional digits. -/
def formatFixed (x : PyFloat) (p : ℕ) : String :=
  if p = 0 then String.mk (natDigits (nVal x p))
  else
    String.mk (natDigits (nVal x p / 10 ^ p)) ++ "." ++
      String.mk (padZeros p (natDigits (nVal x p % 10 ^ p)))

/-- The `ParserXML._format_price` method.  A positive amount is rendered as
`'\x20{price: .{prec}f} {curr}'.strip()`; otherwise the sentinel `"N/A"` is
returned without evaluating the format string (so a negative precision, which
would make `format` raise `ValueError`, only errors for positive amounts). -/
def format_price (amount : PyFloat) (currency : String) (precision : ℤ) :
    Except PyErr String :=
  if 0 < amount.num then
    if precision < 0 then Except.error PyErr.valueError
    else Except.ok (pythonStrip (" " ++ formatFixed amount precision.toNat ++ " " ++ currency))
  else Except.ok "N/A"

/-- `_format_price` at its Python default arguments (`currency=''`,
`precision=2`). -/
def format_price_default (amount : PyFloat) : Except PyErr String :=
  format_price amount "" 2

/-- The `SoapParser__soap_seat_info` method. -/
def soap_seat_info (selfRoot : XmlElem) (ns : String) (seat : XmlElem) :
    Except PyErr SeatRec := do
  let summary ← orAttr (pyFind ns seat "Summary")
  let seat_id := summary.get "SeatNumber"
  let available : Bool := summary.get "AvailableInd" == some "true"
  let seat_type := (pyIter selfRoot ns "Features" (some seat)).map (fun f =>
    match f.get "extension" with
    | some e => if e = "" then f.text else some e
    | none => f.text)
  if available then
    let service ← orAttr (pyFind ns seat "Service")
    let fee ← orAttr (pyFind ns service "Fee")
    let amountStr ← orFail (fee.get "Amount") PyErr.typeError
    let amount ← orFail (parseFloat amountStr) PyErr.valueError
    let precStr ← orFail (fee.get "DecimalPlaces") PyErr.typeError
    let precision ← orFail (parseInt precStr) PyErr.valueError
    let currency := pyStr (fee.get "CurrencyCode")
    let seat_price ← format_price (amount.divPow10 precision) currency precision
    let taxVals ← (pyIter selfRoot ns "Tax" (some fee)).mapM (fun tax => do
      let s ← orFail (tax.get "Amount") PyErr.typeError
      orFail (parseFloat s) PyErr.valueError)
    let total_taxes := taxVals.foldl PyFloat.add pyZero
    let taxes ← format_price (total_taxes.divPow10 precision) currency precision
    return format_seat seat_id seat_type available seat_price taxes
  else
    let seat_price ← format_price pyZero "" 2
    let taxes ← format_price pyZero "" 2
    return format_seat seat_id seat_type available seat_price taxes

/-- The `SoapParser__soap_row_info` method. -/
def soap_row_info (selfRoot : XmlElem) (ns : String) (row : XmlElem) :
    Except PyErr RowRec := do
  let cabin_class := row.get "CabinType"
  let row_number := row.get "RowNumber"
  let seats ← (pyIter selfRoot ns "SeatInfo" (some row)).mapM (soap_seat_info selfRoot ns)
  return format_row row_number cabin_class seats

/-- The body of `SoapParser.parse` before the `result` dict is assembled, as
the ordered list of `(flight_id, flight record)` pairs it assigns.  The method
reads the module-global `root` (not `self.root`) for `body = root[0][0]` and
for the namespace, while `_iter`'s falsy fallback still targets `self.root`,
so both roots are parameters. -/
def soapFlights (globalRoot selfRoot : XmlElem) :
    Except PyErr (List (Option String × FlightRec)) := do
  let c0 ← orFail globalRoot.children.head? PyErr.indexError
  let body ← orFail c0.children.head? PyErr.indexError
  let ns := nsOf body.tag
  (pyIter selfRoot ns "SeatMapResponse" (some body)).mapM (fun response => do
    let flight ← orAttr (pyFind ns response "FlightSegmentInfo")
    let flight_id := flight.get "FlightNumber"
    let flight_departure ← orFail (flight.get "DepartureDateTime") PyErr.attributeError
    let dateTime ← match splitChar 'T' flight_departure.data with
      | [a, b] => Except.ok (String.mk a, String.mk b)
      | _ => Except.error PyErr.valueError
    let seatmap := pyFind ns response "SeatMapDetails"
    let rows ← (pyIter selfRoot ns "RowInfo" seatmap).mapM (soap_row_info selfRoot ns)
    let fl ← format_flight flight_id (some dateTime.1) (some dateTime.2) rows
    return (flight_id, fl))

/-- The `SoapParser.parse` method: the pairs of `soapFlights` assigned into
the `result` dict in order. -/
def soapParse (globalRoot selfRoot : XmlElem) : Except PyErr (PyDict FlightRec) :=
  (soapFlights globalRoot selfRoot).map foldIns

/-- The `IataParser__iata_flight_info` method. -/
def iata_flight_info (ns : String) (flight : XmlElem) : Except PyErr FlightRec := do
  let departure_info ← orAttr (pyFind ns flight "Departure")
  let dateEl ← orAttr (pyFind ns departure_info "Date")
  let timeEl ← orAttr (pyFind ns departure_info "Time")
  let mc ← orAttr (pyFind ns flight "MarketingCarrier")
  let fnEl ← orAttr (pyFind ns mc "FlightNumber")
  format_flight fnEl.text dateEl.text timeEl.text []

/-- The `IataParser__iata_offer_info` method. -/
def iata_offer_info (ns : String) (offer : XmlElem) : Except PyErr String := do
  let upd ← orAttr (pyFind ns offer "UnitPriceDetail")
  let ta ← orAttr (pyFind ns upd "TotalAmount")
  let price_el ← orAttr (pyFind ns ta "SimpleCurrencyPrice")
  let amountStr ← orFail price_el.text PyErr.typeError
  let amount ← orFail (parseFloat amountStr) PyErr.valueError
  let currency := pyStr (price_el.get "Code")
  format_price amount currency 2

/-- The `IataParser__iata_seat_info` method.  The `try` around the offer
lookup catches only `AttributeError` (an absent `OfferItemRefs` element); a
present reference whose key is missing from the offers dict raises an
uncaught `KeyError`. -/
def iata_seat_info (selfRoot : XmlElem) (ns : String) (seat_definitions : PyDict (Option String))
    (offers : PyDict String) (row_number : Option String) (seat : XmlElem) :
    Except PyErr SeatRec := do
  let colEl ← orAttr (pyFind ns seat "Column")
  let seat_id ← match row_number, colEl.text with
    | some r, some c => Except.ok (r ++ c)
    | _, _ => Except.error PyErr.typeError
  let state := (pyIter selfRoot ns "SeatDefinitionRef" (some seat)).foldl
    (fun (acc : Bool × List (Option String)) sdr =>
      if sdr.text == some "SD4" then (true, acc.2)
      else (acc.1, acc.2 ++ [Option.join (dGet seat_definitions sdr.text)]))
    (false, [])
  let price ← if state.1 then
      match pyFind ns seat "OfferItemRefs" with
      | none => format_price pyZero "" 2
      | some offer_ref =>
        match dGet offers offer_ref.text with
        | some p => Except.ok p
        | none => Except.error PyErr.keyError
    else format_price pyZero "" 2
  let taxes ← format_price pyZero "" 2
  return format_seat seat_id state.2 state.1 price taxes

/-- The `IataParser__iata_row_info` method. -/
def iata_row_info (selfRoot : XmlElem) (ns : String) (seat_definitions : PyDict (Option String))
    (offers : PyDict String) (row : XmlElem) : Except PyErr RowRec := do
  let numEl ← orAttr (pyFind ns row "Number")
  let row_number := numEl.text
  let seats ← (pyIter selfRoot ns "Seat" (some row)).mapM
    (iata_seat_info selfRoot ns seat_definitions offers row_number)
  return format_row row_number (some "Common") seats

/-- The body of `IataParser.parse` up to (and including) the seatmap loop:
the `self.flights` dict after every `SeatMap` section has appended its rows.
Note the loop's `self._iter('Row')` passes no scope, so it collects every
`Row` element of the whole document on each iteration. -/
def iataFlightsFinal (selfRoot : XmlElem) : Except PyErr (PyDict FlightRec) := do
  let ns := nsOf selfRoot.tag
  let fpairs ← (pyIter selfRoot ns "FlightSegment" none).mapM (fun flight => do
    let fl ← iata_flight_info ns flight
    return (flight.get "SegmentKey", fl))
  let offersPairs ← (pyIter selfRoot ns "ALaCarteOfferItem" none).mapM (fun offer => do
    let p ← iata_offer_info ns offer
    return (offer.get "OfferItemID", p))
  let offers := foldIns offersPairs
  let defsPairs ← (pyIter selfRoot ns "SeatDefinition" none).mapM (fun seat_def => do
    let descr ← orAttr (pyFind ns seat_def "Description")
    let textEl ← orAttr (pyFind ns descr "Text")
    return (seat_def.get "SeatDefinitionID", textEl.text))
  let seat_definitions := foldIns defsPairs
  (pyIter selfRoot ns "SeatMap" none).foldlM (fun flights seat_map => do
    let srEl ← orAttr (pyFind ns seat_map "SegmentRef")
    let seg_ref := srEl.text
    let flight ← orFail (dGet flights seg_ref) PyErr.typeError
    let newRows ← (pyIter selfRoot ns "Row" none).mapM
      (iata_row_info selfRoot ns seat_definitions offers)
    return flights.map (fun p =>
      if p.1 == seg_ref then (p.1, { flight with rows := flight.rows ++ newRows }) else p))
    (foldIns fpairs)

/-- The `IataParser.parse` method: the flights catalog re-keyed by flight
number. -/
def iataParse (selfRoot : XmlElem) : Except PyErr (PyDict FlightRec) :=
  (iataFlightsFinal selfRoot).map (fun flights =>
    foldIns (flights.map (fun p => (p.2.flight_id, p.2))))

/-- Input states of the `__main__` block, after the external effects (argv
access, file read, XML well-formedness parse) are resolved. -/
inductive MainInput : Type where
  | noArg
  | fileNotFound (path : String)
  | malformedXml (path : String)
  | doc (path : String) (root : XmlElem)

/-- Observable outcome of the `__main__` block.  `abortExit` is the
`abort` path: a highlighted message printed, then `exit()` — which raises
`SystemExit(None)`, i.e. process status `0`; no output file is written.
`uncaught` is an exception escaping `parser.parse()` (process status 1).  -/
inductive Outcome : Type where
  | wrote (filename : String) (data : PyDict FlightRec)
  | abortExit (msg : String) (status : ℕ)
  | uncaught (e : PyErr)
deriving DecidableEq

/-- The `abort` helper: Python `exit()` with no argument terminates the
process with exit status 0. -/
def abortRun (msg : String) : Outcome := Outcome.abortExit msg 0

/-- Python `path.split('.')[0] + '_parsed.json'`. -/
def outputFilename (path : String) : String :=
  String.mk ((splitChar '.' path.data).headD []) ++ "_parsed.json"

/-- The `__main__` block: argv/read/parse failures abort; otherwise dialect
dispatch on the root tag, then the selected parser runs and its result is
serialized. -/
def mainRun (inp : MainInput) : Outcome :=
  match inp with
  | MainInput.noArg => abortRun "Must pass a file path"
  | MainInput.fileNotFound _ => abortRun "File not found"
  | MainInput.malformedXml _ => abortRun "Invalid file format"
  | MainInput.doc path root =>
    if occursIn "xmlsoap".data root.tag.data then
      match soapParse root root with
      | Except.ok data => Outcome.wrote (outputFilename path) data
      | Except.error e => Outcome.uncaught e
    else if occursIn "iata".data root.tag.data then
      match iataParse root with
      | Except.ok data => Outcome.wrote (outputFilename path) data
      | Except.error e => Outcome.uncaught e
    else abortRun "XML format not supported"

def Outcome.exitStatus : Outcome → ℕ
  | Outcome.wrote _ _ => 0
  | Outcome.abortExit _ s => s
  | Outcome.uncaught _ => 1

def Outcome.producedFile : Outcome → Bool
  | Outcome.wrote _ _ => true
  | Outcome.abortExit _ _ => false
  | Outcome.uncaught _ => false

/-! Concrete documents used as evaluation inputs for the claims. -/

/-- Dialect-A example document of the spec: one flight `AB123`, one row `12`
of cabin `Y`, one available seat `12A` with fee 1500 at 2 decimal places in
USD and one tax of 150 (root: Envelope / Body / response payload). -/
def c4TaxEl : XmlElem := XmlElem.mk "Tax" [("Amount", "150")] none XmlChildren.nil

def c4FeeEl : XmlElem :=
  XmlElem.mk "Fee" [("Amount", "1500"), ("DecimalPlaces", "2"), ("CurrencyCode", "USD")] none
    (XmlChildren.ofList [c4TaxEl])

def c4ServiceEl : XmlElem := XmlElem.mk "Service" [] none (XmlChildren.ofList [c4FeeEl])

def c4SummaryEl : XmlElem :=
  XmlElem.mk "Summary" [("SeatNumber", "12A"), ("AvailableInd", "true")] none XmlChildren.nil

def c4SeatEl : XmlElem :=
  XmlElem.mk "SeatInfo" [] none (XmlChildren.ofList [c4SummaryEl, c4ServiceEl])

def c4RowEl : XmlElem :=
  XmlElem.mk "RowInfo" [("CabinType", "Y"), ("RowNumber", "12")] none
    (XmlChildren.ofList [c4SeatEl])

def c4DetailsEl : XmlElem :=
  XmlElem.mk "SeatMapDetails" [] none (XmlChildren.ofList [c4RowEl])

def c4FsInfoEl : XmlElem :=
  XmlElem.mk "FlightSegmentInfo"
    [("FlightNumber", "AB123"), ("DepartureDateTime", "2024-05-01T14:32:00")] none
    XmlChildren.nil

def c4ResponseEl : XmlElem :=
  XmlElem.mk "SeatMapResponse" [] none (XmlChildren.ofList [c4FsInfoEl, c4DetailsEl])

def soapDocC4 : XmlElem :=
  XmlElem.mk "Envelope-xmlsoap" [] none (XmlChildren.ofList
    [XmlElem.mk "Body" [] none (XmlChildren.ofList
      [XmlElem.mk "SeatMapRS" [] none (XmlChildren.ofList [c4ResponseEl])])])

def c4Seat : SeatRec := ⟨some "12A", [], true, "15.00 USD", "1.50 USD"⟩

def c4Row : RowRec := ⟨some "12", some "Y", [c4Seat]⟩

def c4Flight : FlightRec := ⟨some "AB123", some "2024-05-01", "14:32", [c4Row]⟩

/-- An envelope with no children: using it as the module-global `root` makes
`root[0][0]` raise `IndexError`. -/
def soapEmptyEnvelope : XmlElem := XmlElem.mk "Envelope-xmlsoap" [] none XmlChildren.nil

/-- Helper: an element whose only content is text (for reference elements). -/
def textEl (t : String) (s : String) : XmlElem := XmlElem.mk t [] (some s) XmlChildren.nil

/-- Dialect-B document with two flight segments and one seatmap per segment,
each seatmap containing one row. -/
def iataFlightSegment (seg fn date time : String) : XmlElem :=
  XmlElem.mk "FlightSegment" [("SegmentKey", seg)] none (XmlChildren.ofList
    [XmlElem.mk "Departure" [] none (XmlChildren.ofList
      [textEl "Date" date, textEl "Time" time]),
     XmlElem.mk "MarketingCarrier" [] none (XmlChildren.ofList
      [textEl "FlightNumber" fn])])

def iataRowOnly (n : String) : XmlElem :=
  XmlElem.mk "Row" [] none (XmlChildren.ofList [textEl "Number" n])

def iataDocC1 : XmlElem :=
  XmlElem.mk "iata-SeatAvailabilityRS" [] none (XmlChildren.ofList
    [iataFlightSegment "SEG1" "AA1" "2024-05-01" "10:00:00",
     iataFlightSegment "SEG2" "AA2" "2024-05-02" "11:30:00",
     XmlElem.mk "SeatMap" [] none (XmlChildren.ofList
      [textEl "SegmentRef" "SEG1", iataRowOnly "1"]),
     XmlElem.mk "SeatMap" [] none (XmlChildren.ofList
      [textEl "SegmentRef" "SEG2", iataRowOnly "2"])])

def c1Row1 : RowRec := ⟨some "1", some "Common", []⟩

def c1Row2 : RowRec := ⟨some "2", some "Common", []⟩

def c1FlightAA1 : FlightRec := ⟨some "AA1", some "2024-05-01", "10:00", [c1Row1, c1Row2]⟩

def c1FlightAA2 : FlightRec := ⟨some "AA2", some "2024-05-02", "11:30", [c1Row1, c1Row2]⟩

/-- A Dialect-B seat that is available (one `SD4` reference) and carries an
offer reference `OF9` that the offer catalog does not contain. -/
def seatUnresolvedOffer : XmlElem :=
  XmlElem.mk "Seat" [] none (XmlChildren.ofList
    [textEl "Column" "A", textEl "SeatDefinitionRef" "SD4", textEl "OfferItemRefs" "OF9"])

/-- A Dialect-B seat that is available and has no offer reference element. -/
def seatNoOffer : XmlElem :=
  XmlElem.mk "Seat" [] none (XmlChildren.ofList
    [textEl "Column" "A", textEl "SeatDefinitionRef" "SD4"])

def offersOF1 : PyDict String := [(some "OF1", "20.00 EUR")]

/-- A Dialect-A seat that is not available (`AvailableInd="false"`), with two
feature elements: one with an `extension` attribute, one with text only. -/
def soapSeatUnavailable : XmlElem :=
  XmlElem.mk "SeatInfo" [] none (XmlChildren.ofList
    [XmlElem.mk "Summary" [("SeatNumber", "12B"), ("AvailableInd", "false")] none
      XmlChildren.nil,
     XmlElem.mk "Features" [("extension", "Window")] none XmlChildren.nil,
     XmlElem.mk "Features" [] (some "Leg space") XmlChildren.nil])

/-- Dialect-A document with two seatmap responses carrying the same flight
number `AB123` and different departure days. -/
def soapResponseNoRows (fn dep : String) : XmlElem :=
  XmlElem.mk "SeatMapResponse" [] none (XmlChildren.ofList
    [XmlElem.mk "FlightSegmentInfo" [("FlightNumber", fn), ("DepartureDateTime", dep)] none
      XmlChildren.nil,
     XmlElem.mk "SeatMapDetails" [] none XmlChildren.nil])

def soapDupDoc : XmlElem :=
  XmlElem.mk "Envelope-xmlsoap" [] none (XmlChildren.ofList
    [XmlElem.mk "Body" [] none (XmlChildren.ofList
      [XmlElem.mk "SeatMapRS" [] none (XmlChildren.ofList
        [soapResponseNoRows "AB123" "2024-05-01T08:00:00",
         soapResponseNoRows "AB123" "2024-05-02T09:00:00"])])])

def soapDupFl1 : FlightRec := ⟨some "AB123", some "2024-05-01", "08:00", []⟩

def soapDupFl2 : FlightRec := ⟨some "AB123", some "2024-05-02", "09:00", []⟩

def soapDupPairs : List (Option String × FlightRec) :=
  [(some "AB123", soapDupFl1), (some "AB123", soapDupFl2)]

/-- Dialect-B document with two flight segments whose marketing flight number
collides (`AA1` under both `SEG1` and `SEG2`), and no seatmaps. -/
def iataDupDoc : XmlElem :=
  XmlElem.mk "iata-SeatAvailabilityRS" [] none (XmlChildren.ofList
    [iataFlightSegment "SEG1" "AA1" "2024-05-01" "10:00:00",
     iataFlightSegment "SEG2" "AA1" "2024-05-02" "11:30:00"])

def iataDupFl1 : FlightRec := ⟨some "AA1", some "2024-05-01", "10:00", []⟩

def iataDupFl2 : FlightRec := ⟨some "AA1", some "2024-05-02", "11:30", []⟩

/-- A root element whose tag matches neither dialect marker. -/
def unknownRoot : XmlElem := XmlElem.mk "SomethingElse" [] none XmlChildren.nil


deriving instance DecidableEq for Except

theorem strDataMk (l : List Char) : (String.mk l).data = l := rfl

theorem strLenMk (l : List Char) : (String.mk l).length = l.length := rfl

theorem strAppendAssoc (a b c : String) : a ++ b ++ c = a ++ (b ++ c) := by
  apply String.ext
  simp [String.data_append, List.append_assoc]

theorem strAppendEmpty (a : String) : a ++ "" = a := by
  apply String.ext
  simp [String.data_append]

theorem find?_update_self {V : Type} (d : PyDict V) (a : Option String) (v : V)
    (h : d.any (fun p => p.1 == a) = true) :
    (d.map (fun p => if p.1 == a then (a, v) else p)).find? (fun p => p.1 == a) =
      some (a, v) := by
  induction d with
  | nil => simp at h
  | cons q rest ih =>
    rw [List.map_cons]
    by_cases hq : q.1 = a
    · have hif : (if (q.1 == a) = true then (a, v) else q) = (a, v) := by simp [hq]
      rw [hif, List.find?_cons_of_pos _ (by simp)]
    · have hq' : (q.1 == a) = false := beq_eq_false_iff_ne.mpr hq
      have hif : (if (q.1 == a) = true then (a, v) else q) = q := by simp [hq']
      rw [hif, List.find?_cons_of_neg _ (by simp [hq'])]
      apply ih
      simpa [List.any_cons, hq'] using h

theorem find?_update_other {V : Type} (d : PyDict V) (a k : Option String) (v : V)
    (hk : k ≠ a) :
    (d.map (fun p => if p.1 == a then (a, v) else p)).find? (fun p => p.1 == k) =
      d.find? (fun p => p.1 == k) := by
  induction d with
  | nil => simp
  | cons q rest ih =>
    rw [List.map_cons]
    by_cases hq : q.1 = a
    · have hif : (if (q.1 == a) = true then (a, v) else q) = (a, v) := by simp [hq]
      have hqk : (q.1 == k) = false := beq_eq_false_iff_ne.mpr (by rw [hq]; exact fun hc => hk hc.symm)
      have hak : (a == k) = false := beq_eq_false_iff_ne.mpr (fun hc => hk hc.symm)
      rw [hif, List.find?_cons_of_neg _ (by simp [hak]), List.find?_cons_of_neg _ (by simp [hqk])]
      exact ih
    · have hq' : (q.1 == a) = false := beq_eq_false_iff_ne.mpr hq
      have hif : (if (q.1 == a) = true then (a, v) else q) = q := by simp [hq']
      rw [hif]
      by_cases hqk : q.1 = k
      · rw [List.find?_cons_of_pos _ (by simp [hqk]), List.find?_cons_of_pos _ (by simp [hqk])]
      · have hqk' : (q.1 == k) = false := beq_eq_false_iff_ne.mpr hqk
        rw [List.find?_cons_of_neg _ (by simp [hqk']), List.find?_cons_of_neg _ (by simp [hqk'])]
        exact ih

theorem dGet_dinsert {V : Type} (d : PyDict V) (k a : Option String) (v : V) :
    dGet (dinsert d a v) k = if k = a then some v else dGet d k := by
  unfold dinsert dGet
  cases hany : d.any (fun p => p.1 == a) with
  | true =>
    simp only [hany, if_true]
    by_cases hk : k = a
    · subst hk
      rw [find?_update_self d k v hany]
      simp
    · rw [find?_update_other d a k v hk]
      simp [hk]
  | false =>
    simp only [hany, Bool.false_eq_true, if_false]
    have hnone : d.find? (fun p => p.1 == a) = none := by
      rw [List.find?_eq_none]
      intro x hx hbeq
      have : d.any (fun p => p.1 == a) = true := List.any_eq_true.mpr ⟨x, hx, hbeq⟩
      rw [hany] at this
      exact Bool.false_ne_true this
    by_cases hk : k = a
    · subst hk
      rw [List.find?_append, hnone]
      simp
    · rw [List.find?_append]
      have hak : (a == k) = false := beq_eq_false_iff_ne.mpr (fun hc => hk hc.symm)
      simp [hk, hak]

theorem dGet_foldIns {V : Type} (l : List (Option String × V)) (k : Option String) :
    dGet (foldIns l) k = ((l.filter (fun p => p.1 == k)).getLast?).map (fun p => p.2) := by
  induction l using List.reverseRecOn with
  | nil => simp [foldIns, dGet]
  | append_singleton xs p ih =>
    have hfold : foldIns (xs ++ [p]) = dinsert (foldIns xs) p.1 p.2 := by
      simp [foldIns, List.foldl_append]
    rw [hfold, dGet_dinsert]
    by_cases hk : k = p.1
    · subst hk
      simp [List.filter_append]
    · have h1 : (p.1 == k) = false := beq_eq_false_iff_ne.mpr (fun h => hk h.symm)
      simp [List.filter_append, h1, hk, ih]

theorem keys_dinsert_nodup {V : Type} (d : PyDict V) (a : Option String) (v : V)
    (h : (d.map (fun p => p.1)).Nodup) :
    ((dinsert d a v).map (fun p => p.1)).Nodup := by
  unfold dinsert
  cases hany : d.any (fun p => p.1 == a) with
  | true =>
    simp only [hany, if_true]
    have heq : (d.map (fun p => if p.1 == a then (a, v) else p)).map (fun p => p.1) =
        d.map (fun p => p.1) := by
      rw [List.map_map]
      apply List.map_congr_left
      intro p _
      by_cases hp : p.1 = a
      · simp [hp]
      · simp [beq_eq_false_iff_ne.mpr hp, hp]
    rw [heq]
    exact h
  | false =>
    simp only [hany, Bool.false_eq_true, if_false]
    rw [List.map_append]
    simp only [List.map_cons, List.map_nil]
    rw [List.nodup_append]
    refine ⟨h, List.nodup_singleton a, ?_⟩
    intro x hx hx2
    have hxa : x = a := List.mem_singleton.mp hx2
    obtain ⟨q, hq, hq1⟩ := List.mem_map.mp hx
    have hqa : (q.1 == a) = true := by simp [hq1, hxa]
    have hT : d.any (fun p => p.1 == a) = true := List.any_eq_true.mpr ⟨q, hq, hqa⟩
    rw [hany] at hT
    exact Bool.false_ne_true hT

theorem keys_foldIns_nodup {V : Type} (l : List (Option String × V)) :
    ((foldIns l).map (fun p => p.1)).Nodup := by
  induction l using List.reverseRecOn with
  | nil => simp [foldIns]
  | append_singleton xs p ih =>
    have hfold : foldIns (xs ++ [p]) = dinsert (foldIns xs) p.1 p.2 := by
      simp [foldIns, List.foldl_append]
    rw [hfold]
    exact keys_dinsert_nodup _ _ _ ih

theorem digitChar_isDigit (n : ℕ) (h : n < 10) : (Nat.digitChar n).isDigit = true := by
  interval_cases n <;> decide

theorem natDigitsGo_spec :
    ∀ fuel n, n < fuel →
      natDigitsGo fuel n ≠ [] ∧ ∀ c ∈ natDigitsGo fuel n, c.isDigit = true := by
  intro fuel
  induction fuel with
  | zero => intro n h; omega
  | succ f ih =>
    intro n h
    by_cases h10 : n < 10
    · refine ⟨by simp [natDigitsGo, h10], ?_⟩
      intro c hc
      simp only [natDigitsGo, if_pos h10, List.mem_singleton] at hc
      subst hc
      exact digitChar_isDigit n h10
    · have hrec : n / 10 < f := by
        have h1 : n / 10 < n := Nat.div_lt_self (by omega) (by omega)
        omega
      obtain ⟨hne, hdig⟩ := ih (n / 10) hrec
      refine ⟨by simp [natDigitsGo, h10], ?_⟩
      intro c hc
      simp only [natDigitsGo, if_neg h10, List.mem_append, List.mem_singleton] at hc
      rcases hc with hc | hc
      · exact hdig c hc
      · subst hc
        exact digitChar_isDigit (n % 10) (Nat.mod_lt _ (by omega))

theorem natDigits_spec (n : ℕ) :
    natDigits n ≠ [] ∧ ∀ c ∈ natDigits n, c.isDigit = true :=
  natDigitsGo_spec (n + 1) n (Nat.lt_succ_self n)

theorem natDigitsGo_length_le :
    ∀ fuel n p, n < fuel → n < 10 ^ p → 1 ≤ p → (natDigitsGo fuel n).length ≤ p := by
  intro fuel
  induction fuel with
  | zero => intro n p h; omega
  | succ f ih =>
    intro n p h hnp hp
    by_cases h10 : n < 10
    · simp only [natDigitsGo, if_pos h10, List.length_singleton]
      omega
    · have hp2 : 2 ≤ p := by
        by_contra hc
        have hp1 : p = 1 := by omega
        subst hp1
        simp only [pow_one] at hnp
        omega
      have hdiv : n / 10 < 10 ^ (p - 1) := by
        rw [Nat.div_lt_iff_lt_mul (by omega)]
        calc n < 10 ^ p := hnp
          _ = 10 ^ (p - 1) * 10 := by
            rw [← pow_succ]
            congr 1
            omega
      have hrec : n / 10 < f := by
        have h1 : n / 10 < n := Nat.div_lt_self (by omega) (by omega)
        omega
      have hlen := ih (n / 10) (p - 1) hrec hdiv (by omega)
      simp only [natDigitsGo, if_neg h10, List.length_append, List.length_singleton]
      omega

theorem natDigits_length_le (n p : ℕ) (h : n < 10 ^ p) (hp : 1 ≤ p) :
    (natDigits n).length ≤ p :=
  natDigitsGo_length_le (n + 1) n p (Nat.lt_succ_self n) h hp

theorem padZeros_length (p : ℕ) (ds : List Char) (h : ds.length ≤ p) :
    (padZeros p ds).length = p := by
  simp only [padZeros, List.length_append, List.length_replicate]
  omega

theorem padZeros_digits (p : ℕ) (ds : List Char) (h : ∀ c ∈ ds, c.isDigit = true) :
    ∀ c ∈ padZeros p ds, c.isDigit = true := by
  intro c hc
  rcases List.mem_append.mp hc with hc | hc
  · have hc0 := List.eq_of_mem_replicate hc
    subst hc0
    decide
  · exact h c hc

theorem pythonStrip_congr (a b : String) (h : a.data = b.data) :
    pythonStrip a = pythonStrip b := by
  unfold pythonStrip
  rw [h]

/-- C3: the price formatter returns the sentinel `"N/A"` for a zero amount at
every currency and precision; for a positive amount and precision `p` it
returns the amount rendered with exactly `p` digits after the decimal point
(no point at all for `p = 0`), followed by a space and the currency code, with
surrounding whitespace stripped; the Python defaults are `currency=''`,
`precision=2`. -/
theorem c3_format_price_contract :
    (∀ (d : ℕ) (c : String) (p : ℤ), format_price ⟨0, d⟩ c p = Except.ok "N/A") ∧
    (∀ (x : PyFloat) (c : String) (p : ℕ), 0 < x.num →
      ∃ intS fracS : String,
        intS ≠ "" ∧
        (∀ ch ∈ intS.data, ch.isDigit = true) ∧
        (∀ ch ∈ fracS.data, ch.isDigit = true) ∧
        fracS.length = p ∧
        format_price x c (p : ℤ) =
          Except.ok (pythonStrip
            (" " ++ intS ++ (if p = 0 then "" else "." ++ fracS) ++ " " ++ c))) ∧
    (∀ x : PyFloat, format_price_default x = format_price x "" 2) := by
  refine ⟨?_, ?_, fun x => rfl⟩
  · intro d c p
    simp [format_price]
  · intro x c p hx
    have hpn : ¬((p : ℤ) < 0) := by omega
    have htn : ((p : ℤ)).toNat = p := by simp
    by_cases hp0 : p = 0
    · subst hp0
      refine ⟨String.mk (natDigits (nVal x 0)), "", ?_, ?_, ?_, rfl, ?_⟩
      · intro hc
        exact (natDigits_spec (nVal x 0)).1 (congrArg String.data hc)
      · intro ch hch
        exact (natDigits_spec (nVal x 0)).2 ch hch
      · intro ch hch
        simp at hch
      · simp only [format_price, if_pos hx, if_neg hpn, htn]
        congr 1
        apply pythonStrip_congr
        unfold formatFixed
        simp [String.data_append]
    · refine ⟨String.mk (natDigits (nVal x p / 10 ^ p)),
        String.mk (padZeros p (natDigits (nVal x p % 10 ^ p))), ?_, ?_, ?_, ?_, ?_⟩
      · intro hc
        exact (natDigits_spec _).1 (congrArg String.data hc)
      · intro ch hch
        exact (natDigits_spec _).2 ch hch
      · intro ch hch
        exact padZeros_digits p _ (fun c hc => (natDigits_spec _).2 c hc) ch hch
      · rw [strLenMk]
        apply padZeros_length
        apply natDigits_length_le
        · exact Nat.mod_lt _ (pow_pos (by omega) p)
        · omega
      · simp only [format_price, if_pos hx, if_neg hpn, htn]
        congr 1
        apply pythonStrip_congr
        unfold formatFixed
        rw [if_neg hp0]
        simp [String.data_append, List.append_assoc, hp0]

/-- Witness for C3 at concrete inputs: zero amount with precision 3, and the
amount 15 with currency `"USD"` and precision 2. -/
theorem c3_format_price_contract_witness :
    format_price ⟨0, 1⟩ "USD" 3 = Except.ok "N/A" ∧
    (∃ intS fracS : String,
      intS ≠ "" ∧
      (∀ ch ∈ intS.data, ch.isDigit = true) ∧
      (∀ ch ∈ fracS.data, ch.isDigit = true) ∧
      fracS.length = 2 ∧
      format_price ⟨15, 1⟩ "USD" ((2 : ℕ) : ℤ) =
        Except.ok (pythonStrip
          (" " ++ intS ++ (if (2 : ℕ) = 0 then "" else "." ++ fracS) ++ " " ++ "USD"))) :=
  ⟨c3_format_price_contract.1 1 "USD" 3,
   c3_format_price_contract.2.1 ⟨15, 1⟩ "USD" 2 (by decide)⟩

/-- C4: on the Dialect-A example document (flight `AB123`, departure
`2024-05-01T14:32:00`, row `12` of cabin `Y`, available seat `12A` with fee
1500 at 2 decimal places USD and one tax of 150), parsing returns the flight
record with date `2024-05-01`, time `14:32` and the seat record
`12A / available / 15.00 USD / 1.50 USD`. -/
theorem c4_soap_end_to_end :
    soapParse soapDocC4 soapDocC4 = Except.ok [(some "AB123", c4Flight)] := rfl

/-- C1 (code bug evidence): on a Dialect-B document with two seatmap sections
referencing different segments, every flight receives the rows of both
sections — `self._iter('Row')` in the seatmap loop iterates the whole
document, not the current seatmap — so flight `AA1` also holds the row of the
seatmap that references `SEG2`, contradicting the claim. -/
theorem c1_rows_leak_across_seatmaps :
    iataParse iataDocC1 =
      Except.ok [(some "AA1", c1FlightAA1), (some "AA2", c1FlightAA2)] ∧
    c1FlightAA1.rows = [c1Row1, c1Row2] ∧
    c1FlightAA2.rows = [c1Row1, c1Row2] :=
  ⟨rfl, rfl, rfl⟩

/-- C2 (counterexample): a Dialect-B seat marked available whose offer
reference text `OF9` is not a key of the offer catalog makes extraction fail
with an uncaught `KeyError` instead of degrading the price to the sentinel. -/
theorem c2_unresolved_offer_fails :
    iata_seat_info seatUnresolvedOffer "" [] offersOF1 (some "1") seatUnresolvedOffer =
      Except.error PyErr.keyError := rfl

/-- C7 (code bug evidence): `SoapParser.parse` reads the module-global `root`
(`body = root[0][0]`), so two parser instances constructed with the same root
element return different results when the process-global root differs. -/
theorem c7_soap_parse_reads_global_root :
    soapParse soapDocC4 soapDocC4 = Except.ok [(some "AB123", c4Flight)] ∧
    soapParse soapEmptyEnvelope soapDocC4 = Except.error PyErr.indexError ∧
    soapParse soapDocC4 soapDocC4 ≠ soapParse soapEmptyEnvelope soapDocC4 := by
  refine ⟨rfl, rfl, ?_⟩
  decide

/-- C8 (code bug evidence): each of the four abort paths (missing argument,
unreadable input, malformed XML, unsupported dialect) terminates through
`abort`, which calls Python `exit()` with no argument — process exit status
0, not non-zero — while indeed producing no output file. -/
theorem c8_abort_paths_exit_zero :
    ∀ (p : String) (root : XmlElem),
      (mainRun MainInput.noArg = Outcome.abortExit "Must pass a file path" 0 ∧
        (mainRun MainInput.noArg).producedFile = false) ∧
      (mainRun (MainInput.fileNotFound p) = Outcome.abortExit "File not found" 0 ∧
        (mainRun (MainInput.fileNotFound p)).producedFile = false) ∧
      (mainRun (MainInput.malformedXml p) = Outcome.abortExit "Invalid file format" 0 ∧
        (mainRun (MainInput.malformedXml p)).producedFile = false) ∧
      (occursIn "xmlsoap".data root.tag.data = false →
        occursIn "iata".data root.tag.data = false →
        mainRun (MainInput.doc p root) = Outcome.abortExit "XML format not supported" 0 ∧
        (mainRun (MainInput.doc p root)).producedFile = false) := by
  intro p root
  refine ⟨⟨rfl, rfl⟩, ⟨rfl, rfl⟩, ⟨rfl, rfl⟩, ?_⟩
  intro h1 h2
  have hm : mainRun (MainInput.doc p root) = Outcome.abortExit "XML format not supported" 0 := by
    simp [mainRun, h1, h2, abortRun]
  exact ⟨hm, by rw [hm]; rfl⟩

/-- Witness for C8: a document whose root tag matches neither marker aborts
with status 0 and no output file. -/
theorem c8_abort_paths_exit_zero_witness :
    mainRun (MainInput.doc "input.xml" unknownRoot) =
      Outcome.abortExit "XML format not supported" 0 ∧
    (mainRun (MainInput.doc "input.xml" unknownRoot)).producedFile = false :=
  (c8_abort_paths_exit_zero "input.xml" unknownRoot).2.2.2 (by decide) (by decide)

/-- C9: dialect selection looks only at the root tag: a tag containing
`xmlsoap` runs the Dialect-A parser, otherwise a tag containing `iata` runs
the Dialect-B parser, otherwise the run aborts with `XML format not
supported` (before any parser work); two roots with the same tag make the
same abort decision. -/
theorem c9_dialect_detection :
    ∀ (p : String) (root : XmlElem),
      (occursIn "xmlsoap".data root.tag.data = true →
        mainRun (MainInput.doc p root) =
          (match soapParse root root with
            | Except.ok data => Outcome.wrote (outputFilename p) data
            | Except.error e => Outcome.uncaught e)) ∧
      (occursIn "xmlsoap".data root.tag.data = false →
        occursIn "iata".data root.tag.data = true →
        mainRun (MainInput.doc p root) =
          (match iataParse root with
            | Except.ok data => Outcome.wrote (outputFilename p) data
            | Except.error e => Outcome.uncaught e)) ∧
      (occursIn "xmlsoap".data root.tag.data = false →
        occursIn "iata".data root.tag.data = false →
        mainRun (MainInput.doc p root) = Outcome.abortExit "XML format not supported" 0) ∧
      (∀ root2 : XmlElem, root.tag = root2.tag →
        ((mainRun (MainInput.doc p root) = Outcome.abortExit "XML format not supported" 0) ↔
          (mainRun (MainInput.doc p root2) = Outcome.abortExit "XML format not supported" 0))) := by
  intro p root
  refine ⟨?_, ?_, ?_, ?_⟩
  · intro h1
    simp [mainRun, h1]
  · intro h1 h2
    simp [mainRun, h1, h2]
  · intro h1 h2
    simp [mainRun, h1, h2, abortRun]
  · intro root2 htag
    by_cases h1 : occursIn "xmlsoap".data root.tag.data = true
    · have h1' : occursIn "xmlsoap".data root2.tag.data = true := by rw [← htag]; exact h1
      constructor
      · intro hcon
        exfalso
        revert hcon
        simp only [mainRun, h1, if_true]
        cases soapParse root root <;> simp
      · intro hcon
        exfalso
        revert hcon
        simp only [mainRun, h1', if_true]
        cases soapParse root2 root2 <;> simp
    · have hf : occursIn "xmlsoap".data root.tag.data = false := by
        cases hb : occursIn "xmlsoap".data root.tag.data
        · rfl
        · exact absurd hb h1
      have hf' : occursIn "xmlsoap".data root2.tag.data = false := by rw [← htag]; exact hf
      by_cases h2 : occursIn "iata".data root.tag.data = true
      · have h2' : occursIn "iata".data root2.tag.data = true := by rw [← htag]; exact h2
        constructor
        · intro hcon
          exfalso
          revert hcon
          simp only [mainRun, hf, h2, if_true]
          cases iataParse root <;> simp
        · intro hcon
          exfalso
          revert hcon
          simp only [mainRun, hf', h2', if_true]
          cases iataParse root2 <;> simp
      · have hg : occursIn "iata".data root.tag.data = false := by
          cases hb : occursIn "iata".data root.tag.data
          · rfl
          · exact absurd hb h2
        have hg' : occursIn "iata".data root2.tag.data = false := by rw [← htag]; exact hg
        constructor
        · intro _
          simp [mainRun, hf', hg', abortRun]
        · intro _
          simp [mainRun, hf, hg, abortRun]

/-- Witness for C9: the unsupported root aborts, and the `xmlsoap`-marked root
dispatches to the Dialect-A parser. -/
theorem c9_dialect_detection_witness :
    mainRun (MainInput.doc "in.xml" unknownRoot) =
      Outcome.abortExit "XML format not supported" 0 ∧
    mainRun (MainInput.doc "in.xml" soapDocC4) =
      (match soapParse soapDocC4 soapDocC4 with
        | Except.ok data => Outcome.wrote (outputFilename "in.xml") data
        | Except.error e => Outcome.uncaught e) :=
  ⟨(c9_dialect_detection "in.xml" unknownRoot).2.2.1 (by decide) (by decide),
   (c9_dialect_detection "in.xml" soapDocC4).1 (by decide)⟩

theorem ok_bind {α β : Type} (a : α) (f : α → Except PyErr β) :
    (Except.ok a >>= f) = f a := rfl

theorem error_bind {α β : Type} (e : PyErr) (f : α → Except PyErr β) :
    ((Except.error e : Except PyErr α) >>= f) = Except.error e := rfl

theorem pure_ok {α : Type} (a : α) : (pure a : Except PyErr α) = Except.ok a := rfl

theorem map_ok {α β : Type} (f : α → β) (a : α) :
    (f <$> (Except.ok a : Except PyErr α)) = Except.ok (f a) := rfl

theorem map_error {α β : Type} (f : α → β) (e : PyErr) :
    (f <$> (Except.error e : Except PyErr α)) = Except.error e := rfl

theorem sd_fold_spec (defs : PyDict (Option String)) (refs : List XmlElem)
    (b : Bool) (acc : List (Option String)) :
    refs.foldl (fun (a : Bool × List (Option String)) sdr =>
      if sdr.text == some "SD4" then (true, a.2)
      else (a.1, a.2 ++ [Option.join (dGet defs sdr.text)])) (b, acc) =
    (b || refs.any (fun r => r.text == some "SD4"),
     acc ++ (refs.filter (fun r => !(r.text == some "SD4"))).map
       (fun r => Option.join (dGet defs r.text))) := by
  induction refs generalizing b acc with
  | nil => simp
  | cons r rest ih =>
    rw [List.foldl_cons]
    by_cases hr : r.text = some "SD4"
    · have hb : (r.text == some "SD4") = true := by simp [hr]
      rw [if_pos hb, ih true acc, List.any_cons, List.filter_cons]
      simp [hb]
    · have hb : (r.text == some "SD4") = false := by simp [hr]
      rw [if_neg (by simp [hb]), ih b _, List.any_cons, List.filter_cons]
      simp [hb, List.append_assoc]

theorem iata_seat_info_eq (selfRoot : XmlElem) (ns : String)
    (defs : PyDict (Option String)) (offers : PyDict String)
    (rn : Option String) (seat : XmlElem) :
    iata_seat_info selfRoot ns defs offers rn seat =
      match pyFind ns seat "Column" with
      | none => Except.error PyErr.attributeError
      | some colEl =>
        match rn, colEl.text with
        | some r, some c =>
          (if (pyIter selfRoot ns "SeatDefinitionRef" (some seat)).any
              (fun x => x.text == some "SD4") then
            match pyFind ns seat "OfferItemRefs" with
            | none =>
              Except.ok (format_seat (some (r ++ c))
                (((pyIter selfRoot ns "SeatDefinitionRef" (some seat)).filter
                  (fun x => !(x.text == some "SD4"))).map
                  (fun x => Option.join (dGet defs x.text)))
                true "N/A" "N/A")
            | some offer_ref =>
              match dGet offers offer_ref.text with
              | some pr =>
                Except.ok (format_seat (some (r ++ c))
                  (((pyIter selfRoot ns "SeatDefinitionRef" (some seat)).filter
                    (fun x => !(x.text == some "SD4"))).map
                    (fun x => Option.join (dGet defs x.text)))
                  true pr "N/A")
              | none => Except.error PyErr.keyError
          else
            Except.ok (format_seat (some (r ++ c))
              (((pyIter selfRoot ns "SeatDefinitionRef" (some seat)).filter
                (fun x => !(x.text == some "SD4"))).map
                (fun x => Option.join (dGet defs x.text)))
              false "N/A" "N/A"))
        | _, _ => Except.error PyErr.typeError := by
  unfold iata_seat_info
  cases hcol : pyFind ns seat "Column" with
  | none => simp [orAttr, error_bind]
  | some colEl =>
    simp only [orAttr, ok_bind]
    cases hrn : rn with
    | none =>
      cases htx : colEl.text <;> simp [error_bind]
    | some r =>
      cases htx : colEl.text with
      | none => simp [error_bind]
      | some c =>
        simp only [ok_bind]
        rw [sd_fold_spec]
        simp only [Bool.false_or, List.nil_append]
        cases hav : (pyIter selfRoot ns "SeatDefinitionRef" (some seat)).any
            (fun x => x.text == some "SD4") with
        | false =>
          simp [hav, format_price, pyZero, ok_bind, pure_ok, map_ok]
        | true =>
          simp only [hav, if_true]
          cases hof : pyFind ns seat "OfferItemRefs" with
          | none => simp [hof, format_price, pyZero, ok_bind, pure_ok, map_ok]
          | some offer_ref =>
            cases hget : dGet offers offer_ref.text with
            | none => simp [hof, hget, error_bind, map_error, format_price, pyZero]
            | some pr => simp [hof, hget, ok_bind, pure_ok, map_ok, format_price, pyZero]

theorem refs_only_sd4 (refs : List XmlElem)
    (h : refs.map XmlElem.text = [some "SD4"]) :
    refs.any (fun r => r.text == some "SD4") = true ∧
    refs.filter (fun r => !(r.text == some "SD4")) = [] := by
  cases refs with
  | nil => simp at h
  | cons x rest =>
    cases rest with
    | nil =>
      simp only [List.map_cons, List.map_nil, List.cons.injEq, and_true] at h
      constructor
      · simp [List.any_cons, h]
      · simp [List.filter_cons, h]
    | cons y t => simp at h

/-- C5: a Dialect-B seat record (when one is produced) has: availability
exactly when some seat-definition reference is the designated `SD4` key; a
feature list holding, in order, the catalog description of every
non-available reference (`none` for an unresolvable key, with no failure);
an empty feature list and `available = true` when `SD4` is the only
reference; `available = false` when no reference is `SD4`; and the taxes
field always the zero sentinel. -/
theorem c5_iata_seat_semantics :
    ∀ (selfRoot : XmlElem) (ns : String) (defs : PyDict (Option String))
      (offers : PyDict String) (rn : Option String) (seat : XmlElem) (sr : SeatRec),
      iata_seat_info selfRoot ns defs offers rn seat = Except.ok sr →
      sr.taxes = "N/A" ∧
      sr.available =
        (pyIter selfRoot ns "SeatDefinitionRef" (some seat)).any
          (fun r => r.text == some "SD4") ∧
      sr.type =
        ((pyIter selfRoot ns "SeatDefinitionRef" (some seat)).filter
          (fun r => !(r.text == some "SD4"))).map
          (fun r => Option.join (dGet defs r.text)) ∧
      ((pyIter selfRoot ns "SeatDefinitionRef" (some seat)).map XmlElem.text =
          [some "SD4"] → sr.available = true ∧ sr.type = []) ∧
      ((∀ r ∈ pyIter selfRoot ns "SeatDefinitionRef" (some seat),
          ¬ r.text = some "SD4") → sr.available = false) := by
  intro selfRoot ns defs offers rn seat sr h
  rw [iata_seat_info_eq] at h
  split at h
  · exact Except.noConfusion h
  · split at h
    · split at h
      · rename_i hav
        split at h
        · simp only [Except.ok.injEq] at h
          subst h
          refine ⟨rfl, hav.symm, rfl, ?_, ?_⟩
          · intro hmap
            refine ⟨rfl, ?_⟩
            show ((pyIter selfRoot ns "SeatDefinitionRef" (some seat)).filter
              (fun x => !(x.text == some "SD4"))).map
              (fun x => Option.join (dGet defs x.text)) = []
            rw [(refs_only_sd4 _ hmap).2]
            rfl
          · intro hall
            exfalso
            obtain ⟨x, hx, hbeq⟩ := List.any_eq_true.mp hav
            exact hall x hx (by simpa using hbeq)
        · split at h
          · simp only [Except.ok.injEq] at h
            subst h
            refine ⟨rfl, hav.symm, rfl, ?_, ?_⟩
            · intro hmap
              refine ⟨rfl, ?_⟩
              show ((pyIter selfRoot ns "SeatDefinitionRef" (some seat)).filter
                (fun x => !(x.text == some "SD4"))).map
                (fun x => Option.join (dGet defs x.text)) = []
              rw [(refs_only_sd4 _ hmap).2]
              rfl
            · intro hall
              exfalso
              obtain ⟨x, hx, hbeq⟩ := List.any_eq_true.mp hav
              exact hall x hx (by simpa using hbeq)
          · exact Except.noConfusion h
      · rename_i hav
        simp only [Except.ok.injEq] at h
        subst h
        have havf : (pyIter selfRoot ns "SeatDefinitionRef" (some seat)).any
            (fun x => x.text == some "SD4") = false := by
          cases hb : (pyIter selfRoot ns "SeatDefinitionRef" (some seat)).any
              (fun x => x.text == some "SD4")
          · rfl
          · exact absurd hb hav
        refine ⟨rfl, havf.symm, rfl, ?_, ?_⟩
        · intro hmap
          exact absurd (refs_only_sd4 _ hmap).1 hav
        · intro _
          rfl
    · exact Except.noConfusion h

/-- Witness for C5: a seat whose only seat-definition reference is `SD4`. -/
theorem c5_iata_seat_semantics_witness :
    (⟨some "1A", [], true, "N/A", "N/A"⟩ : SeatRec).taxes = "N/A" ∧
    (⟨some "1A", [], true, "N/A", "N/A"⟩ : SeatRec).available =
      (pyIter seatNoOffer "" "SeatDefinitionRef" (some seatNoOffer)).any
        (fun r => r.text == some "SD4") ∧
    (⟨some "1A", [], true, "N/A", "N/A"⟩ : SeatRec).type =
      ((pyIter seatNoOffer "" "SeatDefinitionRef" (some seatNoOffer)).filter
        (fun r => !(r.text == some "SD4"))).map
        (fun r => Option.join (dGet [] r.text)) ∧
    ((pyIter seatNoOffer "" "SeatDefinitionRef" (some seatNoOffer)).map XmlElem.text =
        [some "SD4"] →
      (⟨some "1A", [], true, "N/A", "N/A"⟩ : SeatRec).available = true ∧
      (⟨some "1A", [], true, "N/A", "N/A"⟩ : SeatRec).type = []) ∧
    ((∀ r ∈ pyIter seatNoOffer "" "SeatDefinitionRef" (some seatNoOffer),
        ¬ r.text = some "SD4") →
      (⟨some "1A", [], true, "N/A", "N/A"⟩ : SeatRec).available = false) :=
  c5_iata_seat_semantics seatNoOffer "" [] offersOF1 (some "1") seatNoOffer
    ⟨some "1A", [], true, "N/A", "N/A"⟩ rfl

/-- C2 (amended): for an available Dialect-B seat, only an absent
`OfferItemRefs` element is recovered (price degrades to the sentinel); a
present offer reference whose key is missing from the offer catalog raises
an uncaught `KeyError` and extraction of the seat fails. -/
theorem c2_offer_fallback_amended :
    ∀ (selfRoot : XmlElem) (ns : String) (defs : PyDict (Option String))
      (offers : PyDict String) (rn c : String) (seat colEl : XmlElem),
      pyFind ns seat "Column" = some colEl →
      colEl.text = some c →
      (pyIter selfRoot ns "SeatDefinitionRef" (some seat)).any
        (fun r => r.text == some "SD4") = true →
      (pyFind ns seat "OfferItemRefs" = none →
        iata_seat_info selfRoot ns defs offers (some rn) seat =
          Except.ok (format_seat (some (rn ++ c))
            (((pyIter selfRoot ns "SeatDefinitionRef" (some seat)).filter
              (fun x => !(x.text == some "SD4"))).map
              (fun x => Option.join (dGet defs x.text)))
            true "N/A" "N/A")) ∧
      (∀ offer_ref : XmlElem,
        pyFind ns seat "OfferItemRefs" = some offer_ref →
        dGet offers offer_ref.text = none →
        iata_seat_info selfRoot ns defs offers (some rn) seat =
          Except.error PyErr.keyError) := by
  intro selfRoot ns defs offers rn c seat colEl hcol htx hav
  constructor
  · intro hof
    rw [iata_seat_info_eq, hcol]
    simp only [htx, hof, if_pos hav]
  · intro offer_ref hof hget
    rw [iata_seat_info_eq, hcol]
    simp only [htx, hof, hget, if_pos hav]

/-- Witness for C2's amended statement: the two concrete seats (no offer
element; unresolvable offer key). -/
theorem c2_offer_fallback_amended_witness :
    iata_seat_info seatNoOffer "" [] offersOF1 (some "1") seatNoOffer =
      Except.ok (format_seat (some ("1" ++ "A"))
        (((pyIter seatNoOffer "" "SeatDefinitionRef" (some seatNoOffer)).filter
          (fun x => !(x.text == some "SD4"))).map
          (fun x => Option.join (dGet [] x.text)))
        true "N/A" "N/A") ∧
    iata_seat_info seatUnresolvedOffer "" [] offersOF1 (some "1") seatUnresolvedOffer =
      Except.error PyErr.keyError :=
  ⟨(c2_offer_fallback_amended seatNoOffer "" [] offersOF1 "1" "A" seatNoOffer
      (textEl "Column" "A") rfl rfl (by decide)).1 rfl,
   (c2_offer_fallback_amended seatUnresolvedOffer "" [] offersOF1 "1" "A" seatUnresolvedOffer
      (textEl "Column" "A") rfl rfl (by decide)).2 (textEl "OfferItemRefs" "OF9") rfl rfl⟩

/-- C6: a Dialect-A seat whose availability attribute is not exactly `true`
(absent included) yields a record with `available = false`, sentinel price
and taxes, and the feature labels collected in document order (the
`extension` attribute when present and non-empty, the element text
otherwise). -/
theorem c6_soap_unavailable_seat :
    ∀ (selfRoot : XmlElem) (ns : String) (seat summary : XmlElem),
      pyFind ns seat "Summary" = some summary →
      ¬ summary.get "AvailableInd" = some "true" →
      soap_seat_info selfRoot ns seat =
        Except.ok (format_seat (summary.get "SeatNumber")
          ((pyIter selfRoot ns "Features" (some seat)).map (fun f =>
            match f.get "extension" with
            | some e => if e = "" then f.text else some e
            | none => f.text))
          false "N/A" "N/A") := by
  intro selfRoot ns seat summary hsum hav
  unfold soap_seat_info
  rw [hsum]
  have hb : (summary.get "AvailableInd" == some "true") = false :=
    beq_eq_false_iff_ne.mpr hav
  simp only [orAttr, ok_bind, hb, format_price, pyZero, pure_ok, map_ok, format_seat,
    Bool.false_eq_true, if_false]
  rfl

/-- Witness for C6: the concrete unavailable seat with one attribute-borne
feature and one text-borne feature. -/
theorem c6_soap_unavailable_seat_witness :
    soap_seat_info soapSeatUnavailable "" soapSeatUnavailable =
      Except.ok (format_seat
        ((XmlElem.mk "Summary" [("SeatNumber", "12B"), ("AvailableInd", "false")] none
          XmlChildren.nil).get "SeatNumber")
        ((pyIter soapSeatUnavailable "" "Features" (some soapSeatUnavailable)).map (fun f =>
          match f.get "extension" with
          | some e => if e = "" then f.text else some e
          | none => f.text))
        false "N/A" "N/A") :=
  c6_soap_unavailable_seat soapSeatUnavailable "" soapSeatUnavailable
    (XmlElem.mk "Summary" [("SeatNumber", "12B"), ("AvailableInd", "false")] none
      XmlChildren.nil) rfl (by decide)

/-- C10: duplicate flight numbers do not fail a parse: in Dialect-A the
`result` dict keeps one entry per flight id holding the record of the last
response assigned (keys are distinct, lookup gives the last pair with the
key); in Dialect-B the final re-keying by flight number keeps exactly one of
the colliding catalog entries — the last one in catalog order. -/
theorem c10_duplicate_flight_ids_last_wins :
    (∀ (g r : XmlElem) (l : List (Option String × FlightRec)),
      soapFlights g r = Except.ok l →
        soapParse g r = Except.ok (foldIns l) ∧
        ((foldIns l).map (fun p => p.1)).Nodup ∧
        ∀ k, dGet (foldIns l) k =
          ((l.filter (fun p => p.1 == k)).getLast?).map (fun p => p.2)) ∧
    (∀ (r : XmlElem) (fl : PyDict FlightRec),
      iataFlightsFinal r = Except.ok fl →
        iataParse r =
          Except.ok (foldIns (fl.map (fun p => (p.2.flight_id, p.2)))) ∧
        ((foldIns (fl.map (fun p => (p.2.flight_id, p.2)))).map (fun p => p.1)).Nodup ∧
        ∀ k, dGet (foldIns (fl.map (fun p => (p.2.flight_id, p.2)))) k =
          (((fl.map (fun p => (p.2.flight_id, p.2))).filter
            (fun q => q.1 == k)).getLast?).map (fun q => q.2)) := by
  constructor
  · intro g r l h
    refine ⟨?_, keys_foldIns_nodup l, fun k => dGet_foldIns l k⟩
    unfold soapParse
    rw [h]
    rfl
  · intro r fl h
    refine ⟨?_, keys_foldIns_nodup _, fun k => dGet_foldIns _ k⟩
    unfold iataParse
    rw [h]
    rfl

/-- Witness for C10: a Dialect-A document with two responses for `AB123` and
a Dialect-B document with two segments marketing `AA1`; in both results the
colliding identifier maps to the later record. -/
theorem c10_duplicate_flight_ids_last_wins_witness :
    soapParse soapDupDoc soapDupDoc = Except.ok (foldIns soapDupPairs) ∧
    dGet (foldIns soapDupPairs) (some "AB123") = some soapDupFl2 ∧
    iataParse iataDupDoc =
      Except.ok (foldIns (([(some "SEG1", iataDupFl1), (some "SEG2", iataDupFl2)] :
        PyDict FlightRec).map (fun p => (p.2.flight_id, p.2)))) ∧
    dGet (foldIns (([(some "SEG1", iataDupFl1), (some "SEG2", iataDupFl2)] :
      PyDict FlightRec).map (fun p => (p.2.flight_id, p.2)))) (some "AA1") =
      some iataDupFl2 := by
  have h1 := c10_duplicate_flight_ids_last_wins.1 soapDupDoc soapDupDoc soapDupPairs rfl
  have h2 := c10_duplicate_flight_ids_last_wins.2 iataDupDoc
    [(some "SEG1", iataDupFl1), (some "SEG2", iataDupFl2)] rfl
  refine ⟨h1.1, ?_, h2.1, ?_⟩
  · rw [h1.2.2 (some "AB123")]
    rfl
  · rw [h2.2.2 (some "AA1")]
    rfl
